import Mathlib

/-!
# Verification of the python-kucoin REST client core

A shallow embedding of `kucoin/client.py`: the request-signing pipeline
(`_get_params_for_sig`, `_generate_signature`), the request staging done by
`_request`, the response handler `_handle_response`, and the endpoint data-map
builders (`create_market_order`, `create_limit_order`, `create_inner_transfer`,
`cancel_all_orders`, `get_kline_data`).

Python dictionaries are insertion ordered, so a request data mapping is an
association list `DataMap`. Python scalar values that flow through the client
(strings, integers, booleans) are the inductive `PyValue`, with Python
truthiness and Python `str()` rendering made explicit.

The helpers `compact_json_dict` and `flat_uuid` live in `kucoin/utils.py`,
which is not part of the sources in scope; they are modelled from the
specification text, and each such definition says so in its doc comment.
-/

namespace Kucoin

/-- A Python scalar value as used in request data mappings: a string, an
integer or a boolean. -/
inductive PyValue where
  | pstr (s : String)
  | pint (n : Int)
  | pbool (b : Bool)
deriving DecidableEq, Repr

/-- Python truthiness of a scalar: empty string, zero and False are falsy. -/
def PyValue.truthy : PyValue → Bool
  | .pstr s => !(s == "")
  | .pint n => !(n == 0)
  | .pbool b => b

/-- Python `str()` rendering of a scalar, as used by `"...".format(...)`. -/
def PyValue.pyStr : PyValue → String
  | .pstr s => s
  | .pint n => toString n
  | .pbool b => if b then "True" else "False"

/-- JSON rendering of a scalar value.  Strings are quoted with backslash and
double-quote escaped; integers and booleans render in JSON syntax. -/
def PyValue.jsonStr : PyValue → String
  | .pstr s => "\"" ++ (s.replace "\\" "\\\\").replace "\"" "\\\"" ++ "\""
  | .pint n => toString n
  | .pbool b => if b then "true" else "false"

/-- An insertion-ordered request data mapping (a Python dict of scalars). -/
abbrev DataMap : Type := List (String × PyValue)

/-- Python truthiness of a dict: it is truthy when non-empty
(the `if data:` tests in the client). -/
def dataTruthy (d : DataMap) : Bool :=
  match d with
  | [] => false
  | _ :: _ => true

/-- Truthiness of an optional argument (`None` is falsy, otherwise Python
truthiness of the value). Models the `if x:` tests on keyword arguments. -/
def optTruthy (v : Option PyValue) : Bool :=
  match v with
  | none => false
  | some x => x.truthy

/-- Truthiness of an optional string argument. -/
def optStrTruthy (v : Option String) : Bool :=
  match v with
  | none => false
  | some s => !(s == "")

/-- Modelled from the spec: `kucoin/utils.py` is not in the sources; the spec
says data is serialized "as a minified JSON object (no extraneous whitespace,
stable key order as provided)".  `\x7b`, `\x7d` are the brace characters. -/
def compact_json_dict (d : DataMap) : String :=
  "\x7b" ++
    String.intercalate ","
      (d.map (fun p => PyValue.jsonStr (.pstr p.1) ++ ":" ++ p.2.jsonStr)) ++
  "\x7d"

/-- Modelled from the spec: `kucoin/utils.py` is not in the sources; the spec
says order-placement and inner-transfer calls "auto-generate a client order
identifier" when none is supplied (a fresh uuid hex string, here a fixed
non-empty placeholder since no claim depends on its exact value). -/
def flat_uuid : String := "0123456789abcdef0123456789abcdef"

/-- Embeds `Client._get_params_for_sig` (client.py lines 71-79):
join of "key=value" pairs with "&", iterating the mapping in order. -/
def get_params_for_sig (d : DataMap) : String :=
  String.intercalate "&" (d.map (fun p => p.1 ++ "=" ++ p.2.pyStr))

/-- The endpoint component of the canonical signing string
(client.py lines 93-97): for a GET with truthy data, the path with the
ordered query string appended; otherwise the path unchanged. -/
def endpointForSig (method path : String) (d : DataMap) : String :=
  if method == "get" && dataTruthy d then
    path ++ "?" ++ get_params_for_sig d
  else
    path

/-- The body component of the canonical signing string
(client.py lines 92, 98-99): compact JSON for a non-GET with truthy data,
otherwise the empty string. -/
def bodyForSig (method : String) (d : DataMap) : String :=
  if method != "get" && dataTruthy d then compact_json_dict d else ""

/-!
## SHA-256, HMAC and base64

`_generate_signature` calls Python `hashlib.sha256`, `hmac.new` and
`base64.b64encode`.  These standard algorithms are embedded executably:
bytes are `Nat` (kept below 256 by construction), 32-bit words are `Nat`
reduced modulo `2 ^ 32`.
-/

/-- Truncation to a 32-bit word. -/
def w32 (x : Nat) : Nat := x % 4294967296

/-- Right rotation of a 32-bit word by `n` bits. -/
def rotr (n x : Nat) : Nat := w32 ((x >>> n) ||| (x <<< (32 - n)))

/-- Bitwise complement of a 32-bit word. -/
def not32 (x : Nat) : Nat := x ^^^ 4294967295

def sigma0 (x : Nat) : Nat := rotr 2 x ^^^ rotr 13 x ^^^ rotr 22 x
def sigma1 (x : Nat) : Nat := rotr 6 x ^^^ rotr 11 x ^^^ rotr 25 x
def gamma0 (x : Nat) : Nat := rotr 7 x ^^^ rotr 18 x ^^^ (x >>> 3)
def gamma1 (x : Nat) : Nat := rotr 17 x ^^^ rotr 19 x ^^^ (x >>> 10)
def chF (x y z : Nat) : Nat := (x &&& y) ^^^ (not32 x &&& z)
def majF (x y z : Nat) : Nat := (x &&& y) ^^^ (x &&& z) ^^^ (y &&& z)

/-- The 64 SHA-256 round constants (FIPS 180-4 section 4.2.2), written in
decimal. -/
def sha256K : List Nat :=
  [1116352408, 1899447441, 3049323471, 3921009573, 961987163,
   1508970993, 2453635748, 2870763221, 3624381080, 310598401,
   607225278, 1426881987, 1925078388, 2162078206, 2614888103,
   3248222580, 3835390401, 4022224774, 264347078, 604807628,
   770255983, 1249150122, 1555081692, 1996064986, 2554220882,
   2821834349, 2952996808, 3210313671, 3336571891, 3584528711,
   113926993, 338241895, 666307205, 773529912, 1294757372,
   1396182291, 1695183700, 1986661051, 2177026350, 2456956037,
   2730485921, 2820302411, 3259730800, 3345764771, 3516065817,
   3600352804, 4094571909, 275423344, 430227734, 506948616,
   659060556, 883997877, 958139571, 1322822218, 1537002063,
   1747873779, 1955562222, 2024104815, 2227730452, 2361852424,
   2428436474, 2756734187, 3204031479, 3329325298]

/-- The SHA-256 initial hash value (FIPS 180-4 section 5.3.3), written in
decimal. -/
def sha256H0 : List Nat :=
  [1779033703, 3144134277, 1013904242, 2773480762,
   1359893119, 2600822924, 528734635, 1541459225]

/-- Big-endian byte rendering of `x` on `n` bytes. -/
def bytesBE (n x : Nat) : List Nat :=
  (List.range n).map (fun i => (x >>> (8 * (n - 1 - i))) % 256)

/-- SHA-256 message padding: append 0x80, zero bytes up to 56 mod 64, then
the 64-bit big-endian bit length. -/
def padMessage (msg : List Nat) : List Nat :=
  let L := msg.length
  msg ++ [0x80] ++ List.replicate ((64 - ((L + 9) % 64)) % 64) 0 ++
    bytesBE 8 (L * 8)

/-- Split a byte list into 64-byte blocks (fuel-driven recursion). -/
def toBlocksGo : Nat → List Nat → List (List Nat)
  | 0, _ => []
  | _, [] => []
  | fuel + 1, l => l.take 64 :: toBlocksGo fuel (l.drop 64)

def toBlocks (l : List Nat) : List (List Nat) := toBlocksGo l.length l

/-- The first 16 words of the message schedule: big-endian 32-bit words of
the block. -/
def blockWords (block : List Nat) : List Nat :=
  (List.range 16).map (fun i =>
    (block.getD (4 * i) 0) <<< 24 ||| (block.getD (4 * i + 1) 0) <<< 16 |||
    (block.getD (4 * i + 2) 0) <<< 8 ||| block.getD (4 * i + 3) 0)

/-- Extend the message schedule by `n` further words. -/
def extendSchedule : Nat → List Nat → List Nat
  | 0, ws => ws
  | n + 1, ws =>
    let t := ws.length
    extendSchedule n (ws ++ [w32 (gamma1 (ws.getD (t - 2) 0) +
      ws.getD (t - 7) 0 + gamma0 (ws.getD (t - 15) 0) + ws.getD (t - 16) 0)])

/-- The working state of the SHA-256 compression function. -/
structure Sha256State where
  a : Nat
  b : Nat
  c : Nat
  d : Nat
  e : Nat
  f : Nat
  g : Nat
  h : Nat

/-- One round of the SHA-256 compression function. -/
def sha256Round (st : Sha256State) (kw : Nat × Nat) : Sha256State :=
  let t1 := w32 (st.h + sigma1 st.e + chF st.e st.f st.g + kw.1 + kw.2)
  let t2 := w32 (sigma0 st.a + majF st.a st.b st.c)
  ⟨w32 (t1 + t2), st.a, st.b, st.c, w32 (st.d + t1), st.e, st.f, st.g⟩

/-- Compress one 64-byte block into the chaining value. -/
def compressBlock (hv : List Nat) (block : List Nat) : List Nat :=
  let ws := extendSchedule 48 (blockWords block)
  let st0 : Sha256State :=
    ⟨hv.getD 0 0, hv.getD 1 0, hv.getD 2 0, hv.getD 3 0,
     hv.getD 4 0, hv.getD 5 0, hv.getD 6 0, hv.getD 7 0⟩
  let st := (sha256K.zip ws).foldl sha256Round st0
  [w32 (hv.getD 0 0 + st.a), w32 (hv.getD 1 0 + st.b),
   w32 (hv.getD 2 0 + st.c), w32 (hv.getD 3 0 + st.d),
   w32 (hv.getD 4 0 + st.e), w32 (hv.getD 5 0 + st.f),
   w32 (hv.getD 6 0 + st.g), w32 (hv.getD 7 0 + st.h)]

/-- SHA-256 of a byte list, as a 32-byte list. -/
def sha256 (msg : List Nat) : List Nat :=
  ((toBlocks (padMessage msg)).foldl compressBlock sha256H0).flatMap (bytesBE 4)

/-- HMAC-SHA256 (RFC 2104): block size 64 bytes, inner pad 0x36, outer
pad 0x5c; a key longer than the block is first hashed. -/
def hmacSha256 (key msg : List Nat) : List Nat :=
  let k := if 64 < key.length then sha256 key else key
  let k64 := k ++ List.replicate (64 - k.length) 0
  sha256 ((k64.map (fun b => b ^^^ 0x5c)) ++
    sha256 ((k64.map (fun b => b ^^^ 0x36)) ++ msg))

/-- The base64 alphabet. -/
def base64Alphabet : String :=
  "ABCDEFGHIJKLMNOPQRSTUVWXYZabcdefghijklmnopqrstuvwxyz0123456789+/"

/-- Character `i` of the base64 alphabet. -/
def b64Char (i : Nat) : String :=
  String.singleton (base64Alphabet.toList.getD i 'A')

/-- Standard base64 encoding of a byte list, with `=` padding. -/
def base64Encode : List Nat → String
  | [] => ""
  | [a] =>
    b64Char (a >>> 2) ++ b64Char ((a &&& 3) <<< 4) ++ "=="
  | [a, b] =>
    b64Char (a >>> 2) ++ b64Char (((a &&& 3) <<< 4) ||| (b >>> 4)) ++
      b64Char ((b &&& 15) <<< 2) ++ "="
  | a :: b :: c :: rest =>
    b64Char (a >>> 2) ++ b64Char (((a &&& 3) <<< 4) ||| (b >>> 4)) ++
      b64Char (((b &&& 15) <<< 2) ||| (c >>> 6)) ++ b64Char (c &&& 63) ++
      base64Encode rest

/-- UTF-8 encoding of one character. -/
def utf8Char (c : Char) : List Nat :=
  let n := c.toNat
  if n < 0x80 then [n]
  else if n < 0x800 then
    [0xc0 ||| (n >>> 6), 0x80 ||| (n &&& 0x3f)]
  else if n < 0x10000 then
    [0xe0 ||| (n >>> 12), 0x80 ||| ((n >>> 6) &&& 0x3f), 0x80 ||| (n &&& 0x3f)]
  else
    [0xf0 ||| (n >>> 18), 0x80 ||| ((n >>> 12) &&& 0x3f),
     0x80 ||| ((n >>> 6) &&& 0x3f), 0x80 ||| (n &&& 0x3f)]

/-- UTF-8 encoding of a string, as the Python utf-8 encode produces. -/
def strUtf8 (s : String) : List Nat := s.data.flatMap utf8Char

/-!
## The signer: `_generate_signature`
-/

/-- Embeds `Client._generate_signature` (client.py lines 81-102), following
the source control flow: `data_json` starts empty and `endpoint` starts as
the path; a GET with truthy data appends the ordered query string to the
endpoint, a non-GET with truthy data sets `data_json` to the compact JSON of
the data; the canonical string is nonce, uppercased method, endpoint and
body concatenated, and the signature is the base64 of its HMAC-SHA256 under
the UTF-8 secret. -/
def generate_signature (secret : String) (nonce : Nat) (method path : String)
    (data : DataMap) : String :=
  let ep :=
    if method == "get" then
      if dataTruthy data then path ++ "?" ++ get_params_for_sig data else path
    else path
  let data_json :=
    if method == "get" then ""
    else if dataTruthy data then compact_json_dict data else ""
  let sig_str :=
    strUtf8 (toString nonce ++ method.toUpper ++ ep ++ data_json)
  base64Encode (hmacSha256 (strUtf8 secret) sig_str)

/-!
## Request staging: `_request` up to the network call
-/

def REST_API_URL : String := "https://openapi-v2.kucoin.com"
def SANDBOX_API_URL : String := "https://openapi-sandbox.kucoin.com"
def API_VERSION : String := "v1"

/-- Embeds `Client._create_path` (client.py lines 104-105). -/
def create_path (path : String) : String :=
  "/api/" ++ API_VERSION ++ "/" ++ path

/-- Embeds `Client._create_uri` (client.py lines 107-108). -/
def create_uri (apiUrl fullPath : String) : String := apiUrl ++ fullPath

/-- How `_request` stages the data for transmission (client.py
lines 131-136): a GET with truthy data sends it as URL query parameters; a
signed non-GET with truthy data sends the compact JSON string as the body;
otherwise the staged dict is passed through unchanged. -/
inductive SentData where
  | asParams (d : DataMap)
  | asJson (s : String)
  | asDict (d : DataMap)
deriving DecidableEq, Repr

/-- The outgoing request assembled by `_request` just before dispatch. -/
structure StagedRequest where
  uri : String
  headers : List (String × String)
  payload : SentData
deriving DecidableEq, Repr

/-- Embeds `Client._request` (client.py lines 110-138) up to the network
dispatch: build the versioned path and URI; when signed, attach the
timestamp header and the signature over the versioned full path and the
staged data; then place the data as query parameters (GET), as the compact
JSON body (signed non-GET, truthy data) or leave it as the dict.  The
current time in milliseconds is the explicit `nonce` parameter. -/
def stageRequest (apiUrl secret : String) (method path : String)
    (signed : Bool) (nonce : Nat) (data : DataMap) : StagedRequest :=
  let fullPath := create_path path
  let uri := create_uri apiUrl fullPath
  let headers :=
    if signed then
      [("KC-API-TIMESTAMP", toString nonce),
       ("KC-API-SIGN", generate_signature secret nonce method fullPath data)]
    else []
  let payload :=
    if dataTruthy data && method == "get" then
      SentData.asParams data
    else if signed && method != "get" && dataTruthy data then
      SentData.asJson (compact_json_dict data)
    else
      SentData.asDict data
  ⟨uri, headers, payload⟩

/-!
## Response handling: `_handle_response`
-/

/-- A decoded JSON value, for response bodies. -/
inductive JValue where
  | jstr (s : String)
  | jnum (n : Int)
  | jbool (b : Bool)
  | jnull
  | jarr (elems : List JValue)
  | jobj (fields : List (String × JValue))

/-- Python truthiness of a JSON value, as the negation test on the success
field applies it. -/
def JValue.truthy : JValue → Bool
  | .jstr s => !(s == "")
  | .jnum n => !(n == 0)
  | .jbool b => b
  | .jnull => false
  | .jarr l => !l.isEmpty
  | .jobj f => !f.isEmpty

/-- Python equality of a JSON value with a string, as the comparison of the
code field with "200000" applies it: only an equal string compares equal. -/
def JValue.pyEqStr : JValue → String → Bool
  | .jstr t, s => t == s
  | _, _ => false

/-- An HTTP response as `_handle_response` consumes it: the status code, the
result of `response.json()` (`none` models the `ValueError` on a body that is
not valid JSON; a decoded body is the response envelope, a JSON object per
the data model), and the raw body text. -/
structure HttpResponse where
  statusCode : Nat
  jsonBody : Option (List (String × JValue))
  text : String

/-- The errors `_handle_response` raises: `KucoinAPIException` carries the
response (modelled by its status and text), `KucoinRequestException` carries
a message. -/
inductive ResponseError where
  | apiError (status : Nat) (text : String)
  | requestError (msg : String)
deriving DecidableEq, Repr

/-- Embeds the status test of client.py line 148 — the decimal rendering of
the status code starting with the string "2": the prefix is a single
character, so the test is that the first character of the rendering is the
digit 2. -/
def startsWithTwo (n : Nat) : Bool :=
  match (toString n).data with
  | [] => false
  | c :: _ => c == '2'

/-- Embeds client.py line 153: a `code` field is present and differs from
the string "200000" under Python equality. -/
def hasBadCode (res : List (String × JValue)) : Bool :=
  match res.lookup "code" with
  | some c => !(c.pyEqStr "200000")
  | none => false

/-- Embeds client.py line 156: a `success` field is present and falsy. -/
def hasFalsySuccess (res : List (String × JValue)) : Bool :=
  match res.lookup "success" with
  | some s => !s.truthy
  | none => false

/-- Embeds `Client._handle_response` (client.py lines 141-165): a status
whose decimal rendering does not start with the digit 2 raises
`KucoinAPIException` at once; then the body is JSON-decoded, a failure
raising `KucoinRequestException` over the raw text; a decoded envelope with
a bad `code` or a falsy `success` raises `KucoinAPIException`; otherwise the
`data` field is returned when present, else the whole envelope. -/
def handle_response (r : HttpResponse) : Except ResponseError JValue :=
  if !(startsWithTwo r.statusCode) then
    .error (.apiError r.statusCode r.text)
  else
    match r.jsonBody with
    | none => .error (.requestError ("Invalid Response: " ++ r.text))
    | some res =>
      if hasBadCode res then .error (.apiError r.statusCode r.text)
      else if hasFalsySuccess res then .error (.apiError r.statusCode r.text)
      else
        match res.lookup "data" with
        | some d => .ok d
        | none => .ok (.jobj res)

/-!
## Endpoint data-map builders
-/

/-- The client-side validation errors: `MarketOrderException` and
`LimitOrderException`, each carrying its message. -/
inductive OrderError where
  | marketOrder (msg : String)
  | limitOrder (msg : String)
deriving DecidableEq, Repr

/-- The staged data of a builder result, the empty mapping on an error. -/
def dataOf : Except OrderError DataMap → DataMap
  | .ok d => d
  | .error _ => []

/-- Whether a builder result is a `LimitOrderException`. -/
def isLimitErr : Except OrderError DataMap → Bool
  | .error (.limitOrder _) => true
  | _ => false

/-- Add `(k, v)` to the mapping only when the optional value is truthy —
the `if x: data[k] = x` pattern of the endpoint builders. -/
def addIfTruthy (d : DataMap) (k : String) : Option PyValue → DataMap
  | some x => if x.truthy then d ++ [(k, x)] else d
  | none => d

/-- The variant of `addIfTruthy` for optional string arguments. -/
def addStrIfTruthy (d : DataMap) (k : String) (v : Option String) : DataMap :=
  addIfTruthy d k (v.map .pstr)

/-- The client order id stored by the builders: the caller id when truthy,
the generated uuid otherwise (the if-else pattern at client.py
lines 373-376, 412-415 and 253-256). -/
def clientOidValue : Option String → String
  | some s => if s == "" then flat_uuid else s
  | none => flat_uuid

/-- Embeds `Client.create_inner_transfer` (client.py lines 244-258): the pay
and receive account ids and the amount, then `clientOid` from the caller when
truthy, else a fresh uuid; the staged POST data mapping. -/
def create_inner_transfer (from_account_id to_account_id : String)
    (amount : PyValue) (order_id : Option String) : DataMap :=
  [("payAccountId", .pstr from_account_id),
   ("recAccountId", .pstr to_account_id),
   ("amount", amount),
   ("clientOid", .pstr (clientOidValue order_id))]

/-- The POST data mapping `create_market_order` builds (client.py
lines 363-380), in insertion order: side, symbol, type, then size and funds
when truthy, then `clientOid` always, then remark and stp when truthy. -/
def marketOrderData (symbol side : String) (size funds : Option PyValue)
    (client_oid remark stp : Option String) : DataMap :=
  addStrIfTruthy (addStrIfTruthy
    ((addIfTruthy (addIfTruthy
      [("side", .pstr side), ("symbol", .pstr symbol),
       ("type", .pstr "market")]
      "size" size) "funds" funds) ++
     [("clientOid", .pstr (clientOidValue client_oid))])
    "remark" remark) "stp" stp

/-- Embeds `Client.create_market_order` (client.py lines 354-382): raises
`MarketOrderException` when neither or both of size and funds are truthy;
otherwise stages `marketOrderData`. -/
def create_market_order (symbol side : String) (size funds : Option PyValue)
    (client_oid remark stp : Option String) : Except OrderError DataMap :=
  if !optTruthy size && !optTruthy funds then
    .error (.marketOrder "Need size or fund parameter")
  else if optTruthy size && optTruthy funds then
    .error (.marketOrder "Need size or fund parameter not both")
  else
    .ok (marketOrderData symbol side size funds client_oid remark stp)

/-- The POST data mapping `create_limit_order` builds (client.py
lines 404-433), in insertion order: symbol, side, type, price, size, then
`clientOid` always, then remark, stp, timeInForce, cancelAfter, postOnly
when truthy, then stop together with stopPrice when stop is truthy, hidden
when truthy, and iceberg together with the visible size — under the literal
key `visible_size` as in the source — when iceberg is truthy.  The
validations of `create_limit_order` guarantee `stop_price` (resp.
`visible_size`) is present in the truthy-stop (resp. truthy-iceberg)
branch, so the `getD` defaults are never exercised there. -/
def limitOrderData (symbol side : String) (price size : PyValue)
    (client_oid remark : Option String) (time_in_force : Option String)
    (stop : Option String) (stop_price : Option PyValue)
    (stp : Option String) (cancel_after : Option PyValue)
    (post_only hidden iceberg visible_size : Option PyValue) : DataMap :=
  let d0 : DataMap :=
    [("symbol", .pstr symbol), ("side", .pstr side),
     ("type", .pstr "limit"), ("price", price), ("size", size)] ++
    [("clientOid", .pstr (clientOidValue client_oid))]
  let d1 := addStrIfTruthy (addStrIfTruthy d0 "remark" remark) "stp" stp
  let d2 := addIfTruthy (addStrIfTruthy d1 "timeInForce" time_in_force)
    "cancelAfter" cancel_after
  let d3 := addIfTruthy d2 "postOnly" post_only
  let d4 :=
    if optStrTruthy stop then
      d3 ++ [("stop", .pstr (stop.getD "")),
             ("stopPrice", stop_price.getD (.pstr ""))]
    else d3
  let d5 := addIfTruthy d4 "hidden" hidden
  if optTruthy iceberg then
    d5 ++ [("iceberg", iceberg.getD (.pstr "")),
           ("visible_size", visible_size.getD (.pstr ""))]
  else d5

/-- Embeds `Client.create_limit_order` (client.py lines 384-435): the five
client-side validations in source order, each raising `LimitOrderException`,
then the staged `limitOrderData`. -/
def create_limit_order (symbol side : String) (price size : PyValue)
    (client_oid remark : Option String) (time_in_force : Option String)
    (stop : Option String) (stop_price : Option PyValue)
    (stp : Option String) (cancel_after : Option PyValue)
    (post_only hidden iceberg visible_size : Option PyValue) :
    Except OrderError DataMap :=
  if optStrTruthy stop && !optTruthy stop_price then
    .error (.limitOrder "Stop order needs stop_price")
  else if optTruthy stop_price && !optStrTruthy stop then
    .error (.limitOrder "Stop order type required with stop_price")
  else if optTruthy cancel_after && !(time_in_force == some "GTT") then
    .error (.limitOrder "Cancel after only works with time_in_force = \"GTT\"")
  else if optTruthy hidden && optTruthy iceberg then
    .error (.limitOrder "Order can be either \"hidden\" or \"iceberg\"")
  else if optTruthy iceberg && !optTruthy visible_size then
    .error (.limitOrder "Iceberg order requires visible_size")
  else
    .ok (limitOrderData symbol side price size client_oid remark time_in_force
      stop stop_price stp cancel_after post_only hidden iceberg visible_size)

/-- Embeds `Client.cancel_all_orders` (client.py lines 442-448): the staged
DELETE data mapping holds the symbol exactly when one was passed — the test
is `symbol is not None`, not truthiness. -/
def cancel_all_orders (symbol : Option String) : DataMap :=
  match symbol with
  | none => []
  | some s => [("symbol", .pstr s)]

/-- The start of the current UTC day in Unix seconds, embedding
`calendar.timegm(datetime.utcnow().date().timetuple())` with the current
Unix time passed explicitly. -/
def startOfUtcDay (now : Nat) : Nat := now / 86400 * 86400

/-- Embeds `Client.get_kline_data` (client.py lines 856-871): symbol, the
kline type when passed (an is-not-None test), then `startAt` — the caller
value, defaulting to the start of the current UTC day — and `endAt` — the
caller value, defaulting to the current Unix time.  The two clock reads of the
source are embedded as the one explicit `now` parameter (Unix seconds). -/
def get_kline_data (symbol : String) (kline_type : Option String)
    (start endAt : Option Nat) (now : Nat) : DataMap :=
  [("symbol", .pstr symbol)] ++
  (match kline_type with
   | some t => [("type", .pstr t)]
   | none => []) ++
  [("startAt", .pint (Int.ofNat (match start with
     | some s => s
     | none => startOfUtcDay now)))] ++
  [("endAt", .pint (Int.ofNat (match endAt with
     | some e => e
     | none => now)))]

/-!
## Helper lemmas
-/

theorem lookup_append_some {l1 l2 : DataMap} {k : String} {v : PyValue}
    (h : l1.lookup k = some v) : (l1 ++ l2).lookup k = some v := by
  induction l1 with
  | nil => simp [List.lookup] at h
  | cons p t ih =>
    rw [List.cons_append]
    rw [List.lookup] at h ⊢
    cases hk : (k == p.1) with
    | true => rw [hk] at h; simpa [hk] using h
    | false => rw [hk] at h; simpa [hk] using ih h

theorem lookup_addIfTruthy_some {d : DataMap} {k : String} {val : PyValue}
    (k2 : String) (v : Option PyValue) (h : d.lookup k = some val) :
    (addIfTruthy d k2 v).lookup k = some val := by
  cases v with
  | none => exact h
  | some x =>
    show List.lookup k (if x.truthy = true then d ++ [(k2, x)] else d) =
      some val
    by_cases ht : x.truthy = true
    · rw [if_pos ht]; exact lookup_append_some h
    · rw [if_neg ht]; exact h

theorem lookup_addStrIfTruthy_some {d : DataMap} {k : String} {val : PyValue}
    (k2 : String) (v : Option String) (h : d.lookup k = some val) :
    (addStrIfTruthy d k2 v).lookup k = some val :=
  lookup_addIfTruthy_some k2 (v.map .pstr) h

theorem lookup_append_none {l1 : DataMap} {k : String} (l2 : DataMap)
    (h : l1.lookup k = none) : (l1 ++ l2).lookup k = l2.lookup k := by
  induction l1 with
  | nil => rfl
  | cons p t ih =>
    rw [List.cons_append]
    rw [List.lookup] at h ⊢
    cases hk : (k == p.1) with
    | true => rw [hk] at h; simp at h
    | false => rw [hk] at h; simpa [hk] using ih h

theorem lookup_addIfTruthy_none {d : DataMap} {k k2 : String}
    (v : Option PyValue) (h : d.lookup k = none) (hk : (k == k2) = false) :
    (addIfTruthy d k2 v).lookup k = none := by
  cases v with
  | none => exact h
  | some x =>
    show List.lookup k (if x.truthy = true then d ++ [(k2, x)] else d) = none
    by_cases ht : x.truthy = true
    · rw [if_pos ht, lookup_append_none _ h]
      simp [List.lookup, hk]
    · rw [if_neg ht]; exact h

/-- The market-order data mapping always carries `clientOid`, holding the
caller id when truthy and the generated uuid otherwise. -/
theorem marketOrderData_clientOid (symbol side : String)
    (size funds : Option PyValue) (client_oid remark stp : Option String) :
    (marketOrderData symbol side size funds client_oid remark stp).lookup
        "clientOid" = some (.pstr (clientOidValue client_oid)) := by
  unfold marketOrderData
  apply lookup_addStrIfTruthy_some
  apply lookup_addStrIfTruthy_some
  rw [lookup_append_none]
  · rfl
  · apply lookup_addIfTruthy_none
    · apply lookup_addIfTruthy_none
      · rfl
      · rfl
    · rfl

/-- The limit-order data mapping always carries `clientOid`, holding the
caller id when truthy and the generated uuid otherwise. -/
theorem limitOrderData_clientOid (symbol side : String) (price size : PyValue)
    (client_oid remark : Option String) (time_in_force : Option String)
    (stop : Option String) (stop_price : Option PyValue)
    (stp : Option String) (cancel_after : Option PyValue)
    (post_only hidden iceberg visible_size : Option PyValue) :
    (limitOrderData symbol side price size client_oid remark time_in_force
        stop stop_price stp cancel_after post_only hidden iceberg
        visible_size).lookup "clientOid" =
      some (.pstr (clientOidValue client_oid)) := by
  simp only [limitOrderData]
  by_cases hi : optTruthy iceberg = true
  · rw [if_pos hi]
    apply lookup_append_some
    apply lookup_addIfTruthy_some
    by_cases hs : optStrTruthy stop = true
    · rw [if_pos hs]
      apply lookup_append_some
      apply lookup_addIfTruthy_some
      apply lookup_addIfTruthy_some
      apply lookup_addStrIfTruthy_some
      apply lookup_addStrIfTruthy_some
      apply lookup_addStrIfTruthy_some
      rfl
    · rw [if_neg hs]
      apply lookup_addIfTruthy_some
      apply lookup_addIfTruthy_some
      apply lookup_addStrIfTruthy_some
      apply lookup_addStrIfTruthy_some
      apply lookup_addStrIfTruthy_some
      rfl
  · rw [if_neg hi]
    apply lookup_addIfTruthy_some
    by_cases hs : optStrTruthy stop = true
    · rw [if_pos hs]
      apply lookup_append_some
      apply lookup_addIfTruthy_some
      apply lookup_addIfTruthy_some
      apply lookup_addStrIfTruthy_some
      apply lookup_addStrIfTruthy_some
      apply lookup_addStrIfTruthy_some
      rfl
    · rw [if_neg hs]
      apply lookup_addIfTruthy_some
      apply lookup_addIfTruthy_some
      apply lookup_addStrIfTruthy_some
      apply lookup_addStrIfTruthy_some
      apply lookup_addStrIfTruthy_some
      rfl

/-- Python string equality of a JSON value with a string holds exactly when
the value is that string. -/
theorem pyEqStr_iff (c : JValue) (s : String) :
    c.pyEqStr s = true ↔ c = JValue.jstr s := by
  cases c <;> simp [JValue.pyEqStr]

set_option maxRecDepth 40000 in
/-- For a three-digit HTTP status, the decimal rendering starts with the
digit 2 exactly on the 2xx range. -/
theorem startsWithTwo_iff (n : Nat) (h1 : 100 ≤ n) (h2 : n < 600) :
    startsWithTwo n = true ↔ 200 ≤ n ∧ n ≤ 299 := by
  have key : ∀ m : Nat, m < 600 → 100 ≤ m →
      (startsWithTwo m = decide (200 ≤ m ∧ m ≤ 299)) := by decide
  rw [key n h2 h1]
  simp

/-!
## C1: the signature formula
-/

/-- C1: for every secret, timestamp, method, path and data mapping,
`_generate_signature` returns exactly the base64 of the HMAC-SHA256, under
the UTF-8 secret, of the UTF-8 canonical string — timestamp, uppercased
method, the endpoint from the GET/non-GET rule and the body — and the
function is deterministic. -/
theorem generate_signature_correct (secret : String) (nonce : Nat)
    (method path : String) (data : DataMap) :
    generate_signature secret nonce method path data =
      base64Encode (hmacSha256 (strUtf8 secret)
        (strUtf8 (toString nonce ++ method.toUpper ++
          endpointForSig method path data ++ bodyForSig method data))) ∧
    generate_signature secret nonce method path data =
      generate_signature secret nonce method path data := by
  refine ⟨?_, rfl⟩
  by_cases hmp : method = "get"
  · subst hmp
    cases hd : dataTruthy data <;>
      simp [generate_signature, endpointForSig, bodyForSig, hd]
  · cases hd : dataTruthy data <;>
      simp [generate_signature, endpointForSig, bodyForSig, hd, hmp]

/-!
## C2: GET query serialization in the signed endpoint
-/

/-- C2: for a GET with a non-empty mapping the signed endpoint is the path,
a question mark and the `k=v` pairs joined with `&` in insertion order; for
an empty mapping it is the path unchanged. -/
theorem endpoint_for_sig_get (path : String) (data : DataMap) :
    (data ≠ [] →
      endpointForSig "get" path data =
        path ++ "?" ++
          String.intercalate "&"
            (data.map (fun p => p.1 ++ "=" ++ p.2.pyStr))) ∧
    endpointForSig "get" path [] = path := by
  constructor
  · intro h
    match data, h with
    | (k, v) :: rest, _ =>
      simp [endpointForSig, dataTruthy, get_params_for_sig]
  · rfl

/-- Witness for C2 at a concrete path and two-key mapping. -/
theorem endpoint_for_sig_get_witness :
    ([(("a" : String), PyValue.pstr "1"), ("b", PyValue.pstr "2")] ≠
        ([] : DataMap)) ∧
    endpointForSig "get" "/api/v1/orders"
        [("a", .pstr "1"), ("b", .pstr "2")] =
      "/api/v1/orders" ++ "?" ++
        String.intercalate "&"
          (([(("a" : String), PyValue.pstr "1"), ("b", PyValue.pstr "2")]).map
            (fun p => p.1 ++ "=" ++ p.2.pyStr)) :=
  ⟨by simp,
   (endpoint_for_sig_get "/api/v1/orders"
     [("a", .pstr "1"), ("b", .pstr "2")]).1 (by simp)⟩

/-!
## C5: empty body segment for non-GET with empty data
-/

/-- C5: for a non-GET call with empty data the signed body segment is the
empty string — not the two-character compact JSON of the empty dict. -/
theorem body_for_sig_empty (method : String) (_hm : method ≠ "get") :
    bodyForSig method [] = "" ∧
    compact_json_dict ([] : DataMap) = "\x7b\x7d" := by
  refine ⟨?_, rfl⟩
  simp [bodyForSig, dataTruthy]

/-- Witness for C5 at method `post`. -/
theorem body_for_sig_empty_witness :
    ("post" ≠ "get") ∧ bodyForSig "post" [] = "" :=
  ⟨by decide, (body_for_sig_empty "post" (by decide)).1⟩

/-!
## C4: signed body equals transmitted body
-/

/-- C4: for a signed non-GET request with truthy data, the transmitted
payload is exactly the compact JSON string, and the body component of the
canonical signing string is that same string, byte for byte. -/
theorem signed_body_matches_transmitted (apiUrl secret method path : String)
    (nonce : Nat) (data : DataMap) (hm : method ≠ "get") (hd : data ≠ []) :
    (stageRequest apiUrl secret method path true nonce data).payload =
      SentData.asJson (compact_json_dict data) ∧
    bodyForSig method data = compact_json_dict data := by
  have hm' : (method == "get") = false := by
    simpa using hm
  have hd' : dataTruthy data = true := by
    match data, hd with
    | _ :: _, _ => rfl
  constructor
  · simp [stageRequest, hm', hd', hm]
  · simp [bodyForSig, hd', hm]

/-- Witness for C4: a POST of one field. -/
theorem signed_body_matches_transmitted_witness :
    (stageRequest REST_API_URL "secret" "post" "orders" true 1234567890000
        [("size", .pstr "1")]).payload =
      SentData.asJson (compact_json_dict [("size", .pstr "1")]) ∧
    bodyForSig "post" [("size", .pstr "1")] =
      compact_json_dict [("size", .pstr "1")] :=
  signed_body_matches_transmitted REST_API_URL "secret" "post" "orders"
    1234567890000 [("size", .pstr "1")] (by decide) (by decide)

/-!
## C3: response handling

The claim as frozen fails on one point: the source negates the raw success
value — Python truthiness — so a present `success` that is falsy without being the
boolean false (the empty string, 0, null, an empty array or object) also
raises the API error, where the claim prescribes the success path.
-/

/-- C3 counterexample: on HTTP 200 with body carrying `success` set to the
empty string — present but not equal to false — the handler raises the API
error, while the claim as stated returns the `data` field. -/
theorem handle_response_falsy_success_cex :
    handle_response
        ⟨200, some [("success", .jstr ""), ("data", .jnum 1)], "b"⟩ =
      .error (.apiError 200 "b") ∧
    JValue.jstr "" ≠ JValue.jbool false ∧
    handle_response
        ⟨200, some [("success", .jstr ""), ("data", .jnum 1)], "b"⟩ ≠
      .ok (.jnum 1) := by
  refine ⟨rfl, fun h => JValue.noConfusion h, fun h => ?_⟩
  rw [show handle_response
      ⟨200, some [("success", .jstr ""), ("data", .jnum 1)], "b"⟩ =
    Except.error (ResponseError.apiError 200 "b") from rfl] at h
  exact Except.noConfusion h

/-- C3 (amended: a present `success` raises the API error whenever it is
falsy, not only when it is false): for a three-digit status, a non-2xx
status raises the API error before any decode; on 2xx a decode failure
raises the request error over the raw text; on a decoded envelope a present
`code` other than the string 200000 raises the API error, as does a present
falsy `success`; otherwise the `data` field is returned when present, else
the whole envelope. -/
theorem handle_response_spec (r : HttpResponse)
    (h1 : 100 ≤ r.statusCode) (h2 : r.statusCode < 600) :
    (¬(200 ≤ r.statusCode ∧ r.statusCode ≤ 299) →
       handle_response r = .error (.apiError r.statusCode r.text)) ∧
    (200 ≤ r.statusCode ∧ r.statusCode ≤ 299 →
       (r.jsonBody = none →
          handle_response r =
            .error (.requestError ("Invalid Response: " ++ r.text))) ∧
       (∀ res, r.jsonBody = some res →
         ((∃ c, res.lookup "code" = some c ∧ c ≠ JValue.jstr "200000") →
            handle_response r = .error (.apiError r.statusCode r.text)) ∧
         ((∃ s, res.lookup "success" = some s ∧ s.truthy = false) →
            handle_response r = .error (.apiError r.statusCode r.text)) ∧
         ((∀ c, res.lookup "code" = some c → c = JValue.jstr "200000") →
          (∀ s, res.lookup "success" = some s → s.truthy = true) →
            (∀ d, res.lookup "data" = some d → handle_response r = .ok d) ∧
            (res.lookup "data" = none →
              handle_response r = .ok (.jobj res))))) := by
  constructor
  · intro hnot
    cases hsw : startsWithTwo r.statusCode with
    | true => exact absurd ((startsWithTwo_iff _ h1 h2).mp hsw) hnot
    | false => simp [handle_response, hsw]
  · intro h2xx
    have hsw : startsWithTwo r.statusCode = true :=
      (startsWithTwo_iff _ h1 h2).mpr h2xx
    constructor
    · intro hnone
      simp [handle_response, hsw, hnone]
    · intro res hres
      refine ⟨?_, ?_, ?_⟩
      · rintro ⟨c, hc, hcne⟩
        have hcx : c.pyEqStr "200000" = false := by
          cases hx : c.pyEqStr "200000" with
          | true => exact absurd ((pyEqStr_iff c "200000").mp hx) hcne
          | false => rfl
        have hbad : hasBadCode res = true := by
          unfold hasBadCode
          rw [hc]
          simp [hcx]
        simp [handle_response, hsw, hres, hbad]
      · rintro ⟨s, hs, hfal⟩
        by_cases hbad : hasBadCode res = true
        · simp [handle_response, hsw, hres, hbad]
        · have hfs : hasFalsySuccess res = true := by
            unfold hasFalsySuccess
            rw [hs]
            simp [hfal]
          simp [handle_response, hsw, hres, hbad, hfs]
      · intro hcode hsucc
        have hbad : hasBadCode res = false := by
          unfold hasBadCode
          cases hc : res.lookup "code" with
          | none => rfl
          | some c =>
            simp [hcode c hc, JValue.pyEqStr]
        have hfs : hasFalsySuccess res = false := by
          unfold hasFalsySuccess
          cases hsv : res.lookup "success" with
          | none => rfl
          | some s => simp [hsucc s hsv]
        constructor
        · intro d hd
          simp [handle_response, hsw, hres, hbad, hfs, hd]
        · intro hd
          simp [handle_response, hsw, hres, hbad, hfs, hd]

/-- Witness for C3 at HTTP 500 with an undecodable body. -/
theorem handle_response_spec_witness :
    ¬(200 ≤ 500 ∧ 500 ≤ 299) ∧
    handle_response ⟨500, none, "oops"⟩ = .error (.apiError 500 "oops") :=
  ⟨by decide,
   (handle_response_spec ⟨500, none, "oops"⟩ (by decide)
     (by decide)).1 (by decide)⟩

/-!
## C6: market-order validation

The claim as frozen says "given"; the source tests truthiness, so a
supplied-but-falsy value (such as size 0) counts as absent.
-/

/-- C6 counterexample: with size supplied as the integer 0 and funds absent
— exactly one of the two given — the call still raises the market-order
error, while the claim as stated promises no validation error. -/
theorem create_market_order_size_zero_cex :
    (some (PyValue.pint 0)).isSome = true ∧
    (none : Option PyValue).isSome = false ∧
    create_market_order "KCS-BTC" "buy" (some (.pint 0)) none none none
        none =
      .error (.marketOrder "Need size or fund parameter") :=
  ⟨rfl, rfl, rfl⟩

/-- C6 (amended: "given" means given a truthy value): both size and funds
truthy raises the market-order error, as does neither truthy; exactly one
truthy builds the request, whose data always carries `clientOid` — the
generated uuid whenever the caller supplies none. -/
theorem create_market_order_spec (symbol side : String)
    (size funds : Option PyValue) (client_oid remark stp : Option String) :
    ((optTruthy size = true ∧ optTruthy funds = true) →
       create_market_order symbol side size funds client_oid remark stp =
         .error (.marketOrder "Need size or fund parameter not both")) ∧
    ((optTruthy size = false ∧ optTruthy funds = false) →
       create_market_order symbol side size funds client_oid remark stp =
         .error (.marketOrder "Need size or fund parameter")) ∧
    (optTruthy size ≠ optTruthy funds →
       (create_market_order symbol side size funds client_oid remark
         stp).isOk = true ∧
       (dataOf (create_market_order symbol side size funds client_oid remark
         stp)).lookup "clientOid" =
           some (.pstr (clientOidValue client_oid))) ∧
    clientOidValue none = flat_uuid := by
  refine ⟨?_, ?_, ?_, rfl⟩
  · rintro ⟨hs, hf⟩
    simp [create_market_order, hs, hf]
  · rintro ⟨hs, hf⟩
    simp [create_market_order, hs, hf]
  · intro hne
    cases hs : optTruthy size <;> cases hf : optTruthy funds
    · rw [hs, hf] at hne; exact absurd rfl hne
    · refine ⟨?_, ?_⟩
      · simp [create_market_order, hs, hf, Except.isOk, Except.toBool]
      · have : create_market_order symbol side size funds client_oid remark
            stp = .ok (marketOrderData symbol side size funds client_oid
              remark stp) := by
          simp [create_market_order, hs, hf]
        rw [this]
        exact marketOrderData_clientOid symbol side size funds client_oid
          remark stp
    · refine ⟨?_, ?_⟩
      · simp [create_market_order, hs, hf, Except.isOk, Except.toBool]
      · have : create_market_order symbol side size funds client_oid remark
            stp = .ok (marketOrderData symbol side size funds client_oid
              remark stp) := by
          simp [create_market_order, hs, hf]
        rw [this]
        exact marketOrderData_clientOid symbol side size funds client_oid
          remark stp
    · rw [hs, hf] at hne; exact absurd rfl hne

/-- Witness for C6: size supplied as a non-empty string, funds absent. -/
theorem create_market_order_spec_witness :
    (create_market_order "KCS-BTC" "buy" (some (.pstr "1")) none none none
      none).isOk = true ∧
    (dataOf (create_market_order "KCS-BTC" "buy" (some (.pstr "1")) none
      none none none)).lookup "clientOid" =
        some (.pstr (clientOidValue none)) :=
  (create_market_order_spec "KCS-BTC" "buy" (some (.pstr "1")) none none
    none none).2.2.1 (by decide)

/-!
## C7: limit-order validation

Same correction as C6: the source tests truthiness, so a supplied-but-falsy
value (stop price 0, hidden false) counts as absent.
-/

/-- C7 counterexample: with stop given and stop_price given as the integer
0 — a combination outside the claimed list of invalid ones — the call still
raises the limit-order error. -/
theorem create_limit_order_stop_price_zero_cex :
    (some (PyValue.pint 0)).isSome = true ∧
    (some "loss").isSome = true ∧
    create_limit_order "KCS-BTC" "buy" (.pstr "1") (.pstr "1") none none
        none (some "loss") (some (.pint 0)) none none none none none none =
      .error (.limitOrder "Stop order needs stop_price") :=
  ⟨rfl, rfl, rfl⟩

/-- C7 (amended: "given" means given a truthy value): the call raises a
limit-order validation error exactly when one of the five conditions holds
— stop truthy without truthy stop_price, stop_price truthy without truthy
stop, cancel_after truthy while time_in_force is not GTT, hidden and
iceberg both truthy, or iceberg truthy without truthy visible_size. -/
theorem create_limit_order_validation (symbol side : String)
    (price size : PyValue) (client_oid remark : Option String)
    (time_in_force : Option String) (stop : Option String)
    (stop_price : Option PyValue) (stp : Option String)
    (cancel_after : Option PyValue)
    (post_only hidden iceberg visible_size : Option PyValue) :
    isLimitErr (create_limit_order symbol side price size client_oid remark
        time_in_force stop stop_price stp cancel_after post_only hidden
        iceberg visible_size) =
      ((optStrTruthy stop && !optTruthy stop_price) ||
       (optTruthy stop_price && !optStrTruthy stop) ||
       (optTruthy cancel_after && !(time_in_force == some "GTT")) ||
       (optTruthy hidden && optTruthy iceberg) ||
       (optTruthy iceberg && !optTruthy visible_size)) := by
  cases h1 : (optStrTruthy stop && !optTruthy stop_price) <;>
  cases h2 : (optTruthy stop_price && !optStrTruthy stop) <;>
  cases h3 : (optTruthy cancel_after && !(time_in_force == some "GTT")) <;>
  cases h4 : (optTruthy hidden && optTruthy iceberg) <;>
  cases h5 : (optTruthy iceberg && !optTruthy visible_size) <;>
    simp [create_limit_order, isLimitErr, h1, h2, h3, h4, h5]

/-!
## C8: client order ids are always present

The presence claim holds for all three builders — `create_limit_order` has
no path omitting `clientOid`.  The "caller-supplied one when given" part
fails for a supplied falsy id: the source tests truthiness, so an empty
string is replaced by the generated uuid.
-/

/-- C8 counterexample: a market order with the client id supplied as the
empty string stages the generated uuid instead of the supplied value. -/
theorem create_market_order_empty_oid_cex :
    create_market_order "KCS-BTC" "buy" (some (.pstr "1")) none (some "")
        none none =
      .ok [("side", .pstr "buy"), ("symbol", .pstr "KCS-BTC"),
           ("type", .pstr "market"), ("size", .pstr "1"),
           ("clientOid", .pstr flat_uuid)] ∧
    flat_uuid ≠ "" := by
  exact ⟨rfl, by decide⟩

/-- C8 (amended: the caller-supplied id is used when truthy, the generated
uuid otherwise): every successful market order, every successful limit
order and every inner transfer stages a `clientOid`, and an absent caller
id yields the generated uuid. -/
theorem client_oid_always_present :
    (∀ f t amt oid, (create_inner_transfer f t amt oid).lookup "clientOid" =
        some (.pstr (clientOidValue oid))) ∧
    (∀ symbol side size funds c r st d,
        create_market_order symbol side size funds c r st = .ok d →
        d.lookup "clientOid" = some (.pstr (clientOidValue c))) ∧
    (∀ symbol side price sz c r tif stop stop_price stp ca po hid ice vs d,
        create_limit_order symbol side price sz c r tif stop stop_price stp
          ca po hid ice vs = .ok d →
        d.lookup "clientOid" = some (.pstr (clientOidValue c))) ∧
    clientOidValue none = flat_uuid := by
  refine ⟨fun f t amt oid => rfl, ?_, ?_, rfl⟩
  · intro symbol side size funds c r st d h
    unfold create_market_order at h
    split at h
    · exact Except.noConfusion h
    · split at h
      · exact Except.noConfusion h
      · injection h with h
        subst h
        exact marketOrderData_clientOid symbol side size funds c r st
  · intro symbol side price sz c r tif stop stop_price stp ca po hid ice
      vs d h
    unfold create_limit_order at h
    split at h
    · exact Except.noConfusion h
    · split at h
      · exact Except.noConfusion h
      · split at h
        · exact Except.noConfusion h
        · split at h
          · exact Except.noConfusion h
          · split at h
            · exact Except.noConfusion h
            · injection h with h
              subst h
              exact limitOrderData_clientOid symbol side price sz c r tif
                stop stop_price stp ca po hid ice vs

/-- Witness for C8: a concrete successful market order carrying the
generated uuid. -/
theorem client_oid_always_present_witness :
    List.lookup "clientOid"
        [("side", PyValue.pstr "buy"), ("symbol", .pstr "KCS-BTC"),
         ("type", .pstr "market"), ("size", .pstr "1"),
         ("clientOid", .pstr flat_uuid)] =
      some (.pstr (clientOidValue none)) :=
  client_oid_always_present.2.1 "KCS-BTC" "buy" (some (.pstr "1")) none
    none none none
    [("side", .pstr "buy"), ("symbol", .pstr "KCS-BTC"),
     ("type", .pstr "market"), ("size", .pstr "1"),
     ("clientOid", .pstr flat_uuid)] rfl

/-!
## C9: `cancel_all_orders` omits an absent symbol
-/

/-- C9: with no symbol the staged data of `cancel_all_orders` is the empty
mapping — no `symbol` key at all — and with a symbol it is exactly that
symbol under `symbol`. -/
theorem cancel_all_orders_symbol (s : String) :
    cancel_all_orders none = [] ∧
    (cancel_all_orders none).lookup "symbol" = none ∧
    cancel_all_orders (some s) = [("symbol", .pstr s)] :=
  ⟨rfl, rfl, rfl⟩

/-!
## C10: `get_kline_data` always sends both time bounds
-/

/-- C10: the staged data of `get_kline_data` always carries `startAt` and
`endAt`: the caller values when passed, else the start of the current UTC
day and the current Unix time. -/
theorem get_kline_data_time_bounds (symbol : String)
    (kline_type : Option String) (start endAt : Option Nat) (now : Nat) :
    (get_kline_data symbol kline_type start endAt now).lookup "startAt" =
      some (.pint (Int.ofNat (match start with
        | some s => s
        | none => startOfUtcDay now))) ∧
    (get_kline_data symbol kline_type start endAt now).lookup "endAt" =
      some (.pint (Int.ofNat (match endAt with
        | some e => e
        | none => now))) ∧
    (get_kline_data symbol kline_type none none now).lookup "startAt" =
      some (.pint (Int.ofNat (now / 86400 * 86400))) ∧
    (get_kline_data symbol kline_type none none now).lookup "endAt" =
      some (.pint (Int.ofNat now)) := by
  cases kline_type <;>
    exact ⟨rfl, rfl, rfl, rfl⟩

end Kucoin
